import Mathlib

/-!
Shallow embedding of the tsuru/autoscaler CloudStack cloud-provider core
(`cluster-autoscaler/cloudprovider/cloudstack` and
`cluster-autoscaler/cloudprovider/globocloudstack`).

Remote API calls are modelled by explicit environment records holding the
response each call would return; errors are strings, matching Go's
`error` values as observed through `Error()`; `fmt.Errorf` with `%v`
verbs is modelled by string concatenation.
-/

namespace Autoscaler

/-- Errors are carried as their message strings, as the Go code only ever
compares and formats them through `Error()`. -/
abbrev Err := String

/-! ## String helpers

Small executable models of the Go standard library string functions the
source uses (`strings.Join`, `strings.Contains`, `strings.TrimPrefix`,
`strings.HasPrefix`).  They are defined over `String.data` so that every
proof can evaluate them by kernel reduction. -/

/-- Model of Go `strings.Join` (same as `String.intercalate`). -/
def joinSep (sep : String) : List String → String
  | [] => ""
  | [s] => s
  | s :: rest => s ++ sep ++ joinSep sep rest

/-- Does `pat` occur as a contiguous sublist of `l`?  Model of the
substring search done by Go `strings.Contains`. -/
def containsSub (pat : List Char) : List Char → Bool
  | [] => pat.isEmpty
  | c :: rest => pat.isPrefixOf (c :: rest) || containsSub pat rest

/-- Model of Go `strings.Contains`. -/
def strContains (s pat : String) : Bool :=
  containsSub pat.data s.data

/-- Model of Go `strings.HasPrefix`. -/
def strHasPfx (s pre : String) : Bool :=
  pre.data.isPrefixOf s.data

/-- Model of Go `strings.TrimPrefix`: removes `pre` from the front of `s`
when present, otherwise returns `s` unchanged. -/
def trimPfx (s pre : String) : String :=
  if strHasPfx s pre then ⟨s.data.drop pre.data.length⟩ else s

/-! ## Model of Go `strconv.Atoi`

`strconv.Atoi(s)` parses an optionally signed decimal integer.  On a
syntax error it returns `0` (with an error the callers in this code base
discard); on a range error it returns the value clamped to the 64-bit
signed integer range.  Both behaviors are reproduced here. -/

/-- Numeric value of a list of decimal digit characters. -/
def digitsVal : List Char → Nat
  | [] => 0
  | c :: rest => (c.toNat - '0'.toNat) * 10 ^ rest.length + digitsVal rest

/-- Is `s` syntactically a valid optionally-signed decimal integer, in the
sense of Go `strconv.Atoi`? -/
def goAtoiValid (s : String) : Bool :=
  match s.data with
  | [] => false
  | c :: rest =>
    let digits := if c = '+' || c = '-' then rest else c :: rest
    !digits.isEmpty && digits.all (fun d => d.isDigit)

/-- Model of Go `strconv.Atoi` as used with a discarded error: returns the
parsed value (clamped to the signed 64-bit range, matching `ErrRange`
behavior) on well-formed input and `0` on a syntax error. -/
def goAtoi (s : String) : Int :=
  if goAtoiValid s then
    let signedVal : Int :=
      match s.data with
      | '-' :: rest => -(digitsVal rest : Int)
      | '+' :: rest => (digitsVal rest : Int)
      | l => (digitsVal l : Int)
    max (-(2 ^ 63)) (min (2 ^ 63 - 1) signedVal)
  else 0

/-! ## Model of Go `net/url.ParseQuery`

The source feeds `AutoScaleVmProfile.Otherdeployparams` through
`url.ParseQuery` and reads values with `Values.Get` (first value wins).
The model below reproduces that behavior for queries without
percent-escapes or semicolons, the only form this code base exercises. -/

/-- Split a character list at every occurrence of `c`. -/
def splitOnChar (c : Char) : List Char → List (List Char)
  | [] => [[]]
  | ch :: rest =>
    let r := splitOnChar c rest
    if ch = c then [] :: r
    else (ch :: r.headD []) :: r.tail

/-- Split a character list at the first occurrence of `c`, if any. -/
def splitFirst (c : Char) : List Char → Option (List Char × List Char)
  | [] => none
  | ch :: rest =>
    if ch = c then some ([], rest)
    else (splitFirst c rest).map (fun p => (ch :: p.1, p.2))

/-- One `key=value` query segment (value empty when no `=` is present). -/
def parseQuerySeg (seg : List Char) : String × String :=
  match splitFirst '=' seg with
  | none => (⟨seg⟩, "")
  | some (k, v) => (⟨k⟩, ⟨v⟩)

/-- Modelled from Go `net/url.ParseQuery` restricted to escape-free
queries: split on `&`, drop empty segments, split each segment at its
first `=`.  Lookup of the resulting association list with `mapGet` below
returns the first value for a key, matching `url.Values.Get`. -/
def parseQuery (s : String) : List (String × String) :=
  ((splitOnChar '&' s.data).filter (fun seg => !seg.isEmpty)).map parseQuerySeg

/-! ## String-keyed maps

Go `map[string]string` values are modelled as association lists without
duplicate keys; `mapInsert` overwrites, `mapGet` looks up. -/

/-- First value bound to `key`, if any. -/
def mapGet : List (String × String) → String → Option String
  | [], _ => none
  | (k, v) :: rest, key => if k = key then some v else mapGet rest key

/-- Value bound to `key`, or `""`: Go map indexing with a missing key. -/
def mapGetD (m : List (String × String)) (key : String) : String :=
  (mapGet m key).getD ""

/-- Map update: removes any previous binding of `k` and appends `(k, v)`. -/
def mapInsert (m : List (String × String)) (k v : String) : List (String × String) :=
  (m.filter (fun p => p.1 ≠ k)) ++ [(k, v)]

/-! ## Core data types -/

/-- A remote virtual machine handle: `cloudstack.VirtualMachine`
restricted to the fields the embedded code reads (`Id`, `State`). -/
structure VirtualMachine where
  id : String
  state : String
deriving DecidableEq, Repr

/-- A CloudStack project (`cloudstack.Project`), reduced to its id. -/
structure Project where
  id : String
deriving DecidableEq, Repr

/-- `cloudstack.AutoScaleVmProfile`, restricted to the fields the
embedded code reads. -/
structure AutoScaleVmProfile where
  id : String
  serviceofferingid : String
  templateid : String
  zoneid : String
  projectid : String
  otherdeployparams : String
deriving DecidableEq, Repr

/-- `vmProfile` from `cloudstack_vmprofile.go`: an AutoScaleVmProfile
plus its resource-detail metadata and the resolved offering/zone
descriptors (kept as their names; no embedded function reads more). -/
structure VmProfile where
  asp : AutoScaleVmProfile
  aspMetadata : List (String × String)
  offering : String
  zone : String
deriving DecidableEq, Repr

/-- `vmProfile.Id()`: the `nodeGroupName` metadata value. -/
def VmProfile.gid (p : VmProfile) : String :=
  mapGetD p.aspMetadata "nodeGroupName"

/-- `vmProfile.maxSize()`: `strconv.Atoi` of the `maxNodes` metadata
value with the error discarded. -/
def VmProfile.maxSize (p : VmProfile) : Int :=
  goAtoi (mapGetD p.aspMetadata "maxNodes")

/-- `vmProfile.minSize()`: `strconv.Atoi` of the `minNodes` metadata
value with the error discarded. -/
def VmProfile.minSize (p : VmProfile) : Int :=
  goAtoi (mapGetD p.aspMetadata "minNodes")

/-- `vmProfile.providerIDPrefix()`: the `providerIDPrefix` metadata
value ("" when absent). -/
def VmProfile.providerIDPfx (p : VmProfile) : String :=
  mapGetD p.aspMetadata "providerIDPrefix"

/-- `vmProfile.projectID()`: the profile's project id, falling back to
the `projectid` key of the parsed `Otherdeployparams` query. -/
def VmProfile.projectID (p : VmProfile) : String :=
  if p.asp.projectid ≠ "" then p.asp.projectid
  else mapGetD (parseQuery p.asp.otherdeployparams) "projectid"

/-- `csNodeGroup`: a vm profile bound to its current list of instances.
The Go struct's back-pointer to the manager is passed explicitly to the
functions that need it. -/
structure CsNodeGroup where
  vmProfile : VmProfile
  vms : List VirtualMachine
deriving DecidableEq, Repr

/-- `csNodeGroup.Id()`. -/
def CsNodeGroup.gid (g : CsNodeGroup) : String := g.vmProfile.gid

/-! ## Provisioner (`csScaler`, globocloudstack/cloudstack_scaler.go)

`createVM` makes each remote call at most once, so a run of the
provisioner is determined by the response each call would get, collected
in `ScalerEnv`.  The calls actually issued are recorded as a `CsOp`
trace. -/

/-- One remote call issued by the scaler. -/
inductive CsOp where
  | deployCall
  | destroyCall (id : String)
  | tagCall (resourceIds : List String)
deriving DecidableEq, Repr

/-- Responses of the remote client for one `createVM` run: the `Id` field
of the deploy response (`none` models a nil response struct), the deploy
error, the tag error, and the destroy error for a given vm id. -/
structure ScalerEnv where
  deployId : Option String
  deployErr : Option Err
  tagErr : Option Err
  destroyErr : String → Option Err

/-- The "entity does not exist" pattern from `isCSErrorNotFound`. -/
def notFoundPattern (id : String) : String :=
  "Invalid parameter id value=" ++ id ++
    " due to incorrect long value format, or entity does not exist"

/-- `isCSErrorNotFound`: does the error text contain the backend's
"entity does not exist" message for this id? -/
def isCSErrorNotFound (err : Option Err) (id : String) : Bool :=
  match err with
  | none => false
  | some e => strContains e (notFoundPattern id)

/-- `csScaler.destroyVM`: issue the destroy call; a "not found" response
is swallowed (destruction is idempotent), any other error is returned
unchanged.  `resp` is the client's response error for this call. -/
def destroyVM (resp : Option Err) (vmID : String) : Option Err :=
  if isCSErrorNotFound resp vmID then none else resp

/-- `csScaler.createVM`: deploy, then tag; on a deploy error carrying an
id, or on a tag error, roll back by destroying the created instance,
folding a destroy failure into the returned error.  Returns the final
error and the trace of remote calls issued. -/
def createVM (env : ScalerEnv) : Option Err × List CsOp :=
  match env.deployErr with
  | some cerr =>
    match env.deployId with
    | some id =>
      if id ≠ "" then
        match destroyVM (env.destroyErr id) id with
        | some derr =>
          (some ("unable to destroy cloudstack VM after error creating: " ++ derr ++
            " - original error: " ++ cerr), [.deployCall, .destroyCall id])
        | none => (some cerr, [.deployCall, .destroyCall id])
      else (some cerr, [.deployCall])
    | none => (some cerr, [.deployCall])
  | none =>
    -- A successful deploy response is non-nil with a non-empty Id (the Go
    -- code dereferences it unconditionally); `getD` covers the same reads.
    let id := env.deployId.getD ""
    match env.tagErr with
    | none => (none, [.deployCall, .tagCall [id]])
    | some terr =>
      match destroyVM (env.destroyErr id) id with
      | some derr =>
        (some ("unable to destroy cloudstack VM after tagging error: " ++ derr ++
          " - original error: " ++ terr), [.deployCall, .tagCall [id], .destroyCall id])
      | none => (some terr, [.deployCall, .tagCall [id], .destroyCall id])

/-! ## GroupScaler (`csScaler.scaleUp`)

`scaleUp` launches `count` concurrent `createVM` units and drains their
errors from a channel.  A batch is modelled by a response environment
per unit index and by `order`, the sequence in which unit results come
out of the channel: any permutation of `0, …, count-1`. -/

/-- The error messages collected from the channel, in channel order. -/
def scaleUpMsgs (envs : Nat → ScalerEnv) (order : List Nat) : List String :=
  order.filterMap (fun i => (createVM (envs i)).1)

/-- `csScaler.scaleUp`'s returned error: `none` when no unit failed,
otherwise all failure messages joined with " - ". -/
def scaleUpRes (envs : Nat → ScalerEnv) (order : List Nat) : Option Err :=
  let msgs := scaleUpMsgs envs order
  if msgs.isEmpty then none
  else some ("error creating VMs: " ++ joinSep " - " msgs)

/-! ## NodeGroup instance bookkeeping (globocloudstack/cloudstack_scaler.go) -/

/-- A Kubernetes node as read by `DeleteNodes`: its name and
`Spec.ProviderID`. -/
structure K8sNode where
  name : String
  providerID : String
deriving DecidableEq, Repr

/-- Index of the first vm satisfying `p`, mirroring the scan loop in
`csNodeGroup.removeVM`. -/
def findIdxVM (p : VirtualMachine → Bool) : List VirtualMachine → Option Nat
  | [] => none
  | v :: rest => if p v then some 0 else Option.map (· + 1) (findIdxVM p rest)

/-- First vm with the given id, mirroring the scan loop in
`csNodeGroup.vmForNode`. -/
def findVM (vmID : String) : List VirtualMachine → Option VirtualMachine
  | [] => none
  | v :: rest => if v.id = vmID then some v else findVM vmID rest

/-- `csNodeGroup.removeVM`: swap-removal — overwrite the first vm with
the given id by the last element of the list and drop the last slot. -/
def removeVM (vms : List VirtualMachine) (vmID : String) : List VirtualMachine :=
  match findIdxVM (fun vm => vm.id = vmID) vms with
  | none => vms
  | some i => (vms.set i (vms.getLastD ⟨"", ""⟩)).dropLast

/-- `csNodeGroup.vmForNode`: strip the group's provider-id prefix from
the node's provider id and look the result up among bound instances. -/
def vmForNode (g : CsNodeGroup) (node : K8sNode) : Except Err VirtualMachine :=
  let vmID := trimPfx node.providerID g.vmProfile.providerIDPfx
  match findVM vmID g.vms with
  | some vm => .ok vm
  | none =>
    .error ("node (" ++ node.name ++ ", " ++ node.providerID ++
      ") not found in nodeGroup " ++ g.gid)

/-- `csNodeGroup.DeleteNodes`: for each node in order, resolve it to a
bound vm (fatal error when not found), destroy it through the scaler
(`destroyResp` gives the client's destroy-response error per vm id), and
swap-remove it from the bound list.  Also returns the ids for which a
destroy call was issued. -/
def deleteNodes (g : CsNodeGroup) (destroyResp : String → Option Err) :
    List K8sNode → CsNodeGroup × Option Err × List String
  | [] => (g, none, [])
  | n :: rest =>
    match vmForNode g n with
    | .error e => (g, some e, [])
    | .ok vm =>
      match destroyVM (destroyResp vm.id) vm.id with
      | some e => (g, some e, [vm.id])
      | none =>
        let g2 : CsNodeGroup := { g with vms := removeVM g.vms vm.id }
        let r := deleteNodes g2 destroyResp rest
        (r.1, r.2.1, vm.id :: r.2.2)

/-! ## Instance state mapping (`toInstanceStatus`) -/

/-- `cloudprovider.InstanceState`; `unset` is the Go zero value the
default branch leaves in place. -/
inductive InstanceState where
  | unset
  | creating
  | running
  | deleting
deriving DecidableEq, Repr

/-- `cloudprovider.InstanceErrorClass`, restricted to the one value the
embedded code uses. -/
inductive InstanceErrorClass where
  | otherErrorClass
deriving DecidableEq, Repr

/-- `cloudprovider.InstanceErrorInfo`. -/
structure InstanceErrorInfo where
  errorClass : InstanceErrorClass
  errorCode : String
  errorMessage : String
deriving DecidableEq, Repr

/-- `cloudprovider.InstanceStatus`. -/
structure InstanceStatus where
  state : InstanceState
  errorInfo : Option InstanceErrorInfo
deriving DecidableEq, Repr

/-- `toInstanceStatus`: map a remote vm state label to the abstract
instance status. -/
def toInstanceStatus (csState : String) : InstanceStatus :=
  if csState = "Starting" ∨ csState = "Migrating" then
    { state := .creating, errorInfo := none }
  else if csState = "Running" then
    { state := .running, errorInfo := none }
  else if csState = "Stopping" ∨ csState = "Stopped" ∨ csState = "Destroyed" ∨
      csState = "Expunging" ∨ csState = "Shutdowned" then
    { state := .deleting, errorInfo := none }
  else
    { state := .unset
      errorInfo := some
        { errorClass := .otherErrorClass
          errorCode := ""
          errorMessage := "unexpected vm state: " ++ csState } }

/-! ## Project cache (cloudstack/cloudstack_project.go)

Timestamps and durations are modelled as integers; `time.Since(t)` at
instant `now` is `now - t`, and the Go zero `time.Time` is `0`. -/

/-- `projectCache` state. -/
structure ProjectCacheState where
  projects : List Project
  maxAge : Int
  lastUpdated : Int
  useProjects : Bool
deriving DecidableEq, Repr

/-- `projectCache.refresh` at instant `now`, where `listResp` is the
response a `ListProjects` call would return.  Result: the new cache
state, the returned error, and whether the remote call was issued. -/
def ProjectCacheState.refresh (pc : ProjectCacheState) (now : Int)
    (listResp : Except Err (List Project)) :
    ProjectCacheState × Option Err × Bool :=
  if !pc.useProjects || (now - pc.lastUpdated ≤ pc.maxAge) then (pc, none, false)
  else
    match listResp with
    | .error e => (pc, some e, true)
    | .ok ps => ({ pc with lastUpdated := now, projects := ps }, none, true)

/-! ## Manager (cloudstack/cloudstack_manager.go) -/

/-- One label auto-discovery selector set. -/
structure LabelConfig where
  selector : List (String × String)
deriving DecidableEq, Repr

/-- `matchesSelector`: every wanted key must exist; a non-empty wanted
value must also match. -/
def matchesSelector (existing wanted : List (String × String)) : Bool :=
  wanted.all fun kv =>
    match mapGet existing kv.1 with
    | none => false
    | some v => kv.2 = "" || v = kv.2

/-- `matchesLabelConfigs`: OR over the configured selector sets. -/
def matchesLabelConfigs (metadata : List (String × String))
    (labels : List LabelConfig) : Bool :=
  labels.any fun lc => matchesSelector metadata lc.selector

/-- `requiredAutoScaleProfileMetadata`. -/
def requiredAutoScaleProfileMetadata : List String :=
  ["nodeGroupName", "minNodes", "maxNodes"]

/-- `cloudstackManager.validASP`. -/
def validASP (labelConfig : List LabelConfig)
    (metadata : List (String × String)) : Bool :=
  (requiredAutoScaleProfileMetadata.all fun k => (mapGet metadata k).isSome) &&
    matchesLabelConfigs metadata labelConfig

/-- `resourceDetailsToMetadata`: key/value details folded into a map. -/
def resourceDetailsToMetadata (details : List (String × String)) :
    List (String × String) :=
  details.foldl (fun m kv => mapInsert m kv.1 kv.2) []

/-- Responses of the remote client for one manager pass, keyed by the
parameters each call is made with. -/
structure ManagerEnv where
  listProjects : Except Err (List Project)
  listProfiles : String → Except Err (List AutoScaleVmProfile)
  listDetails : String → Except Err (List (String × String))
  listVMs : String → String → Except Err (List VirtualMachine)
  getOffering : String → Except Err String
  getZone : String → Except Err String

/-- `cloudstackManager.refreshNodeGroupVms`: list the vms tagged with the
group's name (scoped to its project), then resolve offering and zone.
The Go code mutates the group in place, so the vm list is already
replaced when a later offering/zone lookup fails; the returned group
reflects exactly those partial writes. -/
def refreshNodeGroupVms (env : ManagerEnv) (ng : CsNodeGroup) :
    CsNodeGroup × Option Err :=
  match env.listVMs ng.vmProfile.projectID ng.gid with
  | .error e => (ng, some e)
  | .ok vms =>
    let ng2 : CsNodeGroup := { ng with vms := vms }
    match env.getOffering ng2.vmProfile.asp.serviceofferingid with
    | .error e => (ng2, some e)
    | .ok off =>
      let ng3 : CsNodeGroup := { ng2 with vmProfile.offering := off }
      match env.getZone ng3.vmProfile.asp.zoneid with
      | .error e => (ng3, some e)
      | .ok z => ({ ng3 with vmProfile.zone := z }, none)

/-- The manager state mutated by `Refresh`. -/
structure CloudstackManager where
  nodeGroups : List CsNodeGroup
  projects : ProjectCacheState
  labelConfig : List LabelConfig
deriving DecidableEq

/-- Accumulator of the discovery closure in `Refresh`: the node groups
appended so far and the `registeredIds` name-to-profile-id map. -/
structure RefreshAcc where
  nodeGroups : List CsNodeGroup
  registeredIds : List (String × String)
deriving DecidableEq

/-- The conflict error `Refresh` raises for a duplicated group name. -/
def conflictErr (name aspId existingId : String) : Err :=
  "more than one AutoScaleVMProfile with the nodeGroupName \"" ++ name ++
    "\", ids: " ++ aspId ++ " and " ++ existingId

/-- Discovery of one AutoScaleVmProfile inside `Refresh`: fetch its
metadata, check validity, detect name conflicts, and resolve its vms and
descriptors. -/
def processASP (env : ManagerEnv) (lc : List LabelConfig) (acc : RefreshAcc)
    (asp : AutoScaleVmProfile) : RefreshAcc × Option Err :=
  match env.listDetails asp.id with
  | .error e => (acc, some e)
  | .ok details =>
    let metadata := resourceDetailsToMetadata details
    if validASP lc metadata then
      let ng : CsNodeGroup :=
        { vmProfile := { asp := asp, aspMetadata := metadata, offering := "", zone := "" }
          vms := [] }
      match mapGet acc.registeredIds ng.gid with
      | some existingId => (acc, some (conflictErr ng.gid asp.id existingId))
      | none =>
        let acc2 : RefreshAcc :=
          { acc with registeredIds := mapInsert acc.registeredIds ng.gid asp.id }
        match refreshNodeGroupVms env ng with
        | (_, some e) => (acc2, some e)
        | (ng2, none) => ({ acc2 with nodeGroups := acc2.nodeGroups ++ [ng2] }, none)
    else (acc, none)

/-- Fold of `processASP` over one profile listing, aborting at the first
error but keeping the groups accumulated so far. -/
def processASPs (env : ManagerEnv) (lc : List LabelConfig) (acc : RefreshAcc) :
    List AutoScaleVmProfile → RefreshAcc × Option Err
  | [] => (acc, none)
  | asp :: rest =>
    match processASP env lc acc asp with
    | (acc2, some e) => (acc2, some e)
    | (acc2, none) => processASPs env lc acc2 rest

/-- Discovery of one partition inside `Refresh`: list its profiles and
process each. -/
def processProject (env : ManagerEnv) (lc : List LabelConfig) (acc : RefreshAcc)
    (projectID : String) : RefreshAcc × Option Err :=
  match env.listProfiles projectID with
  | .error e => (acc, some e)
  | .ok asps => processASPs env lc acc asps

/-- Fold of `processProject` over the visited partitions, aborting at the
first error. -/
def processProjects (env : ManagerEnv) (lc : List LabelConfig) (acc : RefreshAcc) :
    List String → RefreshAcc × Option Err
  | [] => (acc, none)
  | pid :: rest =>
    match processProject env lc acc pid with
    | (acc2, some e) => (acc2, some e)
    | (acc2, none) => processProjects env lc acc2 rest

/-- `cloudstackManager.Refresh`: refresh the project cache, visit the
root partition "" followed by every cached project, and — matching the
unconditional `m.nodeGroups = nodeGroups` assignment in the source —
always install whatever group list has been accumulated, together with
the first error encountered. -/
def CloudstackManager.Refresh (m : CloudstackManager) (env : ManagerEnv)
    (now : Int) : CloudstackManager × Option Err :=
  let r := m.projects.refresh now env.listProjects
  match r.2.1 with
  | some e => ({ m with nodeGroups := [], projects := r.1 }, some e)
  | none =>
    let pr := processProjects env m.labelConfig
      { nodeGroups := [], registeredIds := [] }
      ("" :: r.1.projects.map Project.id)
    ({ m with nodeGroups := pr.1.nodeGroups, projects := r.1 }, pr.2)

/-- `cloudstackManager.scaleUp`: delegate to the group scaler (its
returned error for a requested count is `scalerUp count`), then refresh
the group's vm list from the backend. -/
def managerScaleUp (env : ManagerEnv) (scalerUp : Int → Option Err)
    (ng : CsNodeGroup) (toAddCount : Int) : CsNodeGroup × Option Err :=
  match scalerUp toAddCount with
  | some e => (ng, some e)
  | none => refreshNodeGroupVms env ng

/-- Result of `csNodeGroup.TargetSize`, instrumented with the count
passed to `manager.scaleUp` when the self-healing branch fires. -/
structure TargetSizeResult where
  group : CsNodeGroup
  size : Int
  err : Option Err
  scaleUpReq : Option Int
deriving DecidableEq

/-- `csNodeGroup.TargetSize`: read the bound-instance count; when it is
below the configured minimum, synchronously scale up by the difference,
swallow any scale-up error, and re-read the count.  The error component
of the Go return value is always nil. -/
def CsNodeGroup.TargetSize (g : CsNodeGroup) (env : ManagerEnv)
    (scalerUp : Int → Option Err) : TargetSizeResult :=
  let ts : Int := g.vms.length
  let minS := g.vmProfile.minSize
  if ts < minS then
    let r := managerScaleUp env scalerUp g (minS - ts)
    { group := r.1, size := r.1.vms.length, err := none, scaleUpReq := some (minS - ts) }
  else
    { group := g, size := ts, err := none, scaleUpReq := none }

/-- `csNodeGroup.IncreaseSize`: positive delta required; reads the
current size through `TargetSize`; rejects when the desired size exceeds
the maximum; otherwise delegates to `manager.scaleUp`. -/
def CsNodeGroup.IncreaseSize (g : CsNodeGroup) (env : ManagerEnv)
    (scalerUp : Int → Option Err) (delta : Int) : CsNodeGroup × Option Err :=
  if delta ≤ 0 then
    (g, some ("delta must be positive, have: " ++ toString delta))
  else
    let r := g.TargetSize env scalerUp
    match r.err with
    | some e => (r.group, some e)
    | none =>
      let ts := r.size + delta
      if ts > r.group.vmProfile.maxSize then
        (r.group, some ("size increase is too large. current: " ++ toString r.size ++
          " desired: " ++ toString ts ++ " max: " ++ toString r.group.vmProfile.maxSize))
      else managerScaleUp env scalerUp r.group delta

/-! ## Helper lemmas -/

/-- A `createVM` run that returns no error saw neither a deploy nor a
tag error. -/
theorem createVM_ok_fields (env : ScalerEnv) (h : (createVM env).1 = none) :
    env.deployErr = none ∧ env.tagErr = none := by
  rcases env with ⟨deployId, deployErr, tagErr, destroyErr⟩
  rcases deployErr with _ | cerr
  · rcases tagErr with _ | terr
    · exact ⟨rfl, rfl⟩
    · exfalso
      simp only [createVM] at h
      rcases hdv : destroyVM (destroyErr (deployId.getD "")) (deployId.getD "")
          with _ | derr <;> rw [hdv] at h <;> simp at h
  · exfalso
    rcases deployId with _ | id
    · simp [createVM] at h
    · by_cases hid : id = ""
      · simp [createVM, hid] at h
      · simp only [createVM, hid] at h
        rcases hdv : destroyVM (destroyErr id) id with _ | derr <;>
          rw [hdv] at h <;> simp [hid] at h

/-- The trace of a successful `createVM` run: deploy then tag, no
destroy. -/
theorem createVM_ok_shape (env : ScalerEnv) (h : (createVM env).1 = none) :
    (createVM env).2 = [CsOp.deployCall, CsOp.tagCall [env.deployId.getD ""]] := by
  obtain ⟨h1, h2⟩ := createVM_ok_fields env h
  simp [createVM, h1, h2]

/-- `TargetSize` never reports an error (the Go method returns a nil
error on every path). -/
theorem targetSize_err_none_aux (g : CsNodeGroup) (env : ManagerEnv)
    (scalerUp : Int → Option Err) : (g.TargetSize env scalerUp).err = none := by
  simp only [CsNodeGroup.TargetSize]
  split <;> rfl

/-- The size `TargetSize` reports is a list length, hence nonnegative. -/
theorem targetSize_size_nonneg (g : CsNodeGroup) (env : ManagerEnv)
    (scalerUp : Int → Option Err) : 0 ≤ (g.TargetSize env scalerUp).size := by
  simp only [CsNodeGroup.TargetSize]
  split <;> simp

/-- `refreshNodeGroupVms` never touches the profile metadata. -/
theorem refreshNodeGroupVms_metadata (env : ManagerEnv) (ng : CsNodeGroup) :
    (refreshNodeGroupVms env ng).1.vmProfile.aspMetadata = ng.vmProfile.aspMetadata := by
  simp only [refreshNodeGroupVms]
  split
  · rfl
  · split
    · rfl
    · split <;> rfl

/-- `manager.scaleUp` never touches the profile metadata. -/
theorem managerScaleUp_metadata (env : ManagerEnv) (scalerUp : Int → Option Err)
    (ng : CsNodeGroup) (c : Int) :
    (managerScaleUp env scalerUp ng c).1.vmProfile.aspMetadata =
      ng.vmProfile.aspMetadata := by
  simp only [managerScaleUp]
  split
  · rfl
  · exact refreshNodeGroupVms_metadata env ng

/-- `TargetSize` never touches the profile metadata. -/
theorem targetSize_metadata (g : CsNodeGroup) (env : ManagerEnv)
    (scalerUp : Int → Option Err) :
    (g.TargetSize env scalerUp).group.vmProfile.aspMetadata =
      g.vmProfile.aspMetadata := by
  simp only [CsNodeGroup.TargetSize]
  split
  · exact managerScaleUp_metadata env scalerUp g _
  · rfl

/-- A found index is within bounds. -/
theorem findIdxVM_lt (p : VirtualMachine → Bool) :
    ∀ (vms : List VirtualMachine) (i : Nat),
      findIdxVM p vms = some i → i < vms.length
  | [], i, h => by simp [findIdxVM] at h
  | v :: rest, i, h => by
    simp only [findIdxVM] at h
    by_cases hp : p v
    · rw [if_pos hp] at h
      injection h with h
      subst h
      simp
    · rw [if_neg hp] at h
      rcases hfx : findIdxVM p rest with _ | j <;> rw [hfx] at h
      · simp at h
      · simp only [Option.map_some'] at h
        injection h with h
        subst h
        have := findIdxVM_lt p rest j hfx
        simp only [List.length_cons]
        omega

/-- Overwriting position `i` is, up to permutation, removing position
`i` and prepending the new value. -/
theorem set_perm_cons_eraseIdx {α : Type} :
    ∀ (l : List α) (i : Nat) (x : α), i < l.length →
      (l.set i x).Perm (x :: l.eraseIdx i)
  | [], i, x, h => by simp at h
  | a :: t, 0, x, _ => by simp
  | a :: t, i + 1, x, h => by
    have ih := set_perm_cons_eraseIdx t i x (by simpa using h)
    simpa using (ih.cons a).trans (List.Perm.swap x a (t.eraseIdx i))

/-- The swap-removal in `removeVM` is, up to order, exactly the removal
of the matched position: membership of every other instance is kept. -/
theorem removeVM_perm (vms : List VirtualMachine) (vmID : String) (i : Nat)
    (h : findIdxVM (fun vm => vm.id = vmID) vms = some i) :
    (removeVM vms vmID).Perm (vms.eraseIdx i) := by
  have hi : i < vms.length := findIdxVM_lt _ vms i h
  have hne : vms ≠ [] := by
    intro hv; rw [hv] at hi; simp at hi
  unfold removeVM
  rw [h]
  set x := vms.getLastD ⟨"", ""⟩ with hx
  have hxl : x = vms.getLast hne := by
    rw [hx, List.getLastD_eq_getLast?, List.getLast?_eq_getLast vms hne]
    rfl
  have hSne : vms.set i x ≠ [] := by
    intro hv
    have hlen := congrArg List.length hv
    simp only [List.length_set, List.length_nil] at hlen
    omega
  have hlast : (vms.set i x).getLast hSne = x := by
    rw [List.getLast_eq_getElem]
    by_cases hiLast : i = vms.length - 1
    · have heq : (vms.set i x).length - 1 = i := by simp [hiLast]
      simp only [heq]
      rw [List.getElem_set_self]
    · have hil : (vms.set i x).length - 1 = vms.length - 1 := by simp
      simp only [List.getElem_set_ne (show i ≠ (vms.set i x).length - 1 by
        simp only [List.length_set]; omega)]
      simp only [List.length_set]
      exact (List.getLast_eq_getElem vms hne).symm.trans hxl.symm
  have hconcat : (vms.set i x).dropLast ++ [x] = vms.set i x := by
    have hd := List.dropLast_concat_getLast hSne
    rw [hlast] at hd
    exact hd
  have h2 : (x :: (vms.set i x).dropLast).Perm (vms.set i x) := by
    conv_rhs => rw [← hconcat]
    exact @List.perm_append_comm _ [x] ((vms.set i x).dropLast)
  have h3 := set_perm_cons_eraseIdx vms i x hi
  exact (h2.trans h3).cons_inv

/-! ## Claim theorems -/

/-- C2: when `createVM`'s deploy succeeds but the tag call fails, a
destroy is issued for the created instance id; a successful destroy
surfaces exactly the original tagging error, and a failed destroy
surfaces "unable to destroy cloudstack VM after tagging error:
\<destroy error\> - original error: \<tag error\>". -/
theorem createVM_tag_rollback (env : ScalerEnv) (id : String) (terr : Err)
    (hdep : env.deployErr = none) (hid : env.deployId = some id)
    (htag : env.tagErr = some terr) :
    (createVM env).2 = [CsOp.deployCall, CsOp.tagCall [id], CsOp.destroyCall id] ∧
    (destroyVM (env.destroyErr id) id = none → (createVM env).1 = some terr) ∧
    (∀ derr, destroyVM (env.destroyErr id) id = some derr →
      (createVM env).1 = some ("unable to destroy cloudstack VM after tagging error: " ++
        derr ++ " - original error: " ++ terr)) := by
  rcases env with ⟨deployId, deployErr, tagErr, destroyErr⟩
  simp only at hdep hid htag
  subst hdep hid htag
  refine ⟨?_, ?_, ?_⟩
  · simp only [createVM, Option.getD_some]
    rcases hdv : destroyVM (destroyErr id) id with _ | derr <;> rfl
  · intro hdv
    simp only [createVM, Option.getD_some]
    rw [hdv]
  · intro derr hdv
    simp only [createVM, Option.getD_some]
    rw [hdv]

/-- Witness fixture: deploy succeeds, tagging fails, destroy succeeds. -/
def tagErrEnv : ScalerEnv :=
  { deployId := some "vm1-id1", deployErr := none, tagErr := some "tag err"
    destroyErr := fun _ => none }

/-- Witness fixture: deploy succeeds, tagging fails, destroy fails. -/
def tagErrEnv2 : ScalerEnv :=
  { deployId := some "vm1-id1", deployErr := none, tagErr := some "tag err"
    destroyErr := fun _ => some "destroy err" }

/-- C2 witness: a successful deploy of "vm1-id1" followed by a failing
tag call rolls back, both with a successful and with a failing
destroy. -/
theorem createVM_tag_rollback_witness :
    (createVM tagErrEnv).1 = some "tag err" ∧
    (createVM tagErrEnv2).1 =
      some "unable to destroy cloudstack VM after tagging error: destroy err - original error: tag err" := by
  constructor
  · exact (createVM_tag_rollback tagErrEnv "vm1-id1" "tag err" rfl rfl rfl).2.1 (by decide)
  · exact (createVM_tag_rollback tagErrEnv2 "vm1-id1" "tag err" rfl rfl rfl).2.2
      "destroy err" (by decide)

/-- C3: when `createVM`'s deploy call fails with a non-empty instance
identifier, exactly one destroy of that identifier is attempted; a
successful destroy surfaces the original create error unchanged, a
failed destroy surfaces "unable to destroy cloudstack VM after error
creating: \<destroy error\> - original error: \<create error\>"; when the
failing deploy returns no identifier, no destroy is attempted and the
create error is returned unchanged. -/
theorem createVM_create_error_rollback (env : ScalerEnv) (cerr : Err)
    (hdep : env.deployErr = some cerr) :
    (∀ id, env.deployId = some id → id ≠ "" →
      (createVM env).2 = [CsOp.deployCall, CsOp.destroyCall id] ∧
      (destroyVM (env.destroyErr id) id = none → (createVM env).1 = some cerr) ∧
      (∀ derr, destroyVM (env.destroyErr id) id = some derr →
        (createVM env).1 = some ("unable to destroy cloudstack VM after error creating: " ++
          derr ++ " - original error: " ++ cerr))) ∧
    (env.deployId = none ∨ env.deployId = some "" →
      (createVM env).2 = [CsOp.deployCall] ∧ (createVM env).1 = some cerr) := by
  rcases env with ⟨deployId, deployErr, tagErr, destroyErr⟩
  simp only at hdep
  subst hdep
  constructor
  · intro id hdi hne
    simp only at hdi
    subst hdi
    refine ⟨?_, ?_, ?_⟩
    · simp only [createVM]
      rw [if_pos hne]
      rcases hdv : destroyVM (destroyErr id) id with _ | derr <;> rfl
    · intro hdv
      simp only [createVM]
      rw [if_pos hne, hdv]
    · intro derr hdv
      simp only [createVM]
      rw [if_pos hne, hdv]
  · rintro (hdi | hdi) <;> simp only at hdi <;> subst hdi <;>
      exact ⟨rfl, rfl⟩

/-- Witness fixture: deploy fails but returns an id, destroy succeeds. -/
def deployErrEnv : ScalerEnv :=
  { deployId := some "vm1-id1", deployErr := some "deploy timeout err"
    tagErr := none, destroyErr := fun _ => none }

/-- Witness fixture: deploy fails but returns an id, destroy fails. -/
def deployErrEnv2 : ScalerEnv :=
  { deployId := some "vm1-id1", deployErr := some "deploy timeout err"
    tagErr := none, destroyErr := fun _ => some "destroy err" }

/-- Witness fixture: deploy fails with a nil response. -/
def deployErrEnv3 : ScalerEnv :=
  { deployId := none, deployErr := some "deploy err"
    tagErr := none, destroyErr := fun _ => none }

/-- C3 witness: a deploy timeout that still returned id "vm1-id1" is
rolled back (with both destroy outcomes), and a deploy failure without
an id issues no destroy. -/
theorem createVM_create_error_rollback_witness :
    (createVM deployErrEnv).1 = some "deploy timeout err" ∧
    (createVM deployErrEnv2).1 =
      some "unable to destroy cloudstack VM after error creating: destroy err - original error: deploy timeout err" ∧
    (createVM deployErrEnv3).2 = [CsOp.deployCall] := by
  refine ⟨?_, ?_, ?_⟩
  · exact ((createVM_create_error_rollback deployErrEnv "deploy timeout err" rfl).1
      "vm1-id1" rfl (by decide)).2.1 (by decide)
  · exact ((createVM_create_error_rollback deployErrEnv2 "deploy timeout err" rfl).1
      "vm1-id1" rfl (by decide)).2.2 "destroy err" (by decide)
  · exact ((createVM_create_error_rollback deployErrEnv3 "deploy err" rfl).2 (Or.inl rfl)).1

/-- C8: the remote vm state labels map to abstract instance states per
the table: Starting/Migrating to creating, Running to running,
Stopping/Stopped/Destroyed/Expunging/Shutdowned to deleting, and any
other label to an error status with message
"unexpected vm state: \<label\>". -/
theorem toInstanceStatus_table :
    toInstanceStatus "Starting" = { state := .creating, errorInfo := none } ∧
    toInstanceStatus "Migrating" = { state := .creating, errorInfo := none } ∧
    toInstanceStatus "Running" = { state := .running, errorInfo := none } ∧
    toInstanceStatus "Stopping" = { state := .deleting, errorInfo := none } ∧
    toInstanceStatus "Stopped" = { state := .deleting, errorInfo := none } ∧
    toInstanceStatus "Destroyed" = { state := .deleting, errorInfo := none } ∧
    toInstanceStatus "Expunging" = { state := .deleting, errorInfo := none } ∧
    toInstanceStatus "Shutdowned" = { state := .deleting, errorInfo := none } ∧
    ∀ s, s ∉ ["Starting", "Migrating", "Running", "Stopping", "Stopped",
        "Destroyed", "Expunging", "Shutdowned"] →
      toInstanceStatus s =
        { state := .unset
          errorInfo := some
            { errorClass := .otherErrorClass
              errorCode := ""
              errorMessage := "unexpected vm state: " ++ s } } := by
  refine ⟨by decide, by decide, by decide, by decide, by decide, by decide,
    by decide, by decide, ?_⟩
  intro s hs
  simp only [List.mem_cons, List.not_mem_nil, or_false, not_or] at hs
  obtain ⟨h1, h2, h3, h4, h5, h6, h7, h8⟩ := hs
  simp [toInstanceStatus, h1, h2, h3, h4, h5, h6, h7, h8]

/-- C8 witness: the default branch at the unknown label "Unknown". -/
theorem toInstanceStatus_table_witness :
    toInstanceStatus "Unknown" =
      { state := .unset
        errorInfo := some
          { errorClass := .otherErrorClass
            errorCode := ""
            errorMessage := "unexpected vm state: Unknown" } } :=
  toInstanceStatus_table.2.2.2.2.2.2.2.2 "Unknown" (by decide)

/-- C10: `TargetSize` returns a nil error for every node group, remote
environment and scaler outcome — even when the triggered self-healing
scale-up fails. -/
theorem targetSize_error_always_nil (g : CsNodeGroup) (env : ManagerEnv)
    (scalerUp : Int → Option Err) : (g.TargetSize env scalerUp).err = none :=
  targetSize_err_none_aux g env scalerUp

/-- C4: for a batch of `count` units drained from the channel in any
order, `scaleUp` runs exactly `count` `createVM` units; it succeeds iff
every unit's create+tag succeeded; otherwise it returns one combined
error "error creating VMs: ..." joining every per-unit failure message
with " - "; and a successful unit never gets a destroy call (no rollback
of successes on partial batch failure). -/
theorem scaleUp_aggregation (envs : Nat → ScalerEnv) (count : Nat)
    (order : List Nat) (hperm : order.Perm (List.range count))
    (_hpos : 0 < count) :
    order.length = count ∧
    (scaleUpRes envs order = none ↔ ∀ i < count, (createVM (envs i)).1 = none) ∧
    (scaleUpMsgs envs order ≠ [] →
      scaleUpRes envs order =
        some ("error creating VMs: " ++ joinSep " - " (scaleUpMsgs envs order))) ∧
    (∀ i < count, ∀ msg, (createVM (envs i)).1 = some msg →
      msg ∈ scaleUpMsgs envs order) ∧
    (∀ i < count, (createVM (envs i)).1 = none →
      ∀ id, CsOp.destroyCall id ∉ (createVM (envs i)).2) := by
  refine ⟨?_, ?_, ?_, ?_, ?_⟩
  · rw [hperm.length_eq, List.length_range]
  · constructor
    · intro h i hi
      have hmem : i ∈ order := hperm.mem_iff.mpr (List.mem_range.mpr hi)
      simp only [scaleUpRes, scaleUpMsgs] at h
      by_cases hempty : (order.filterMap fun i => (createVM (envs i)).1) = []
      · exact List.filterMap_eq_nil_iff.mp hempty i hmem
      · rw [if_neg (by simpa using hempty)] at h
        simp at h
    · intro h
      simp only [scaleUpRes, scaleUpMsgs]
      rw [if_pos]
      simp only [List.isEmpty_iff]
      apply List.filterMap_eq_nil_iff.mpr
      intro i hmem
      exact h i (List.mem_range.mp (hperm.mem_iff.mp hmem))
  · intro h
    simp only [scaleUpRes]
    rw [if_neg (by simpa using h)]
  · intro i hi msg hmsg
    have hmem : i ∈ order := hperm.mem_iff.mpr (List.mem_range.mpr hi)
    simp only [scaleUpMsgs, List.mem_filterMap]
    exact ⟨i, hmem, hmsg⟩
  · intro i _ hok id hmem
    rw [createVM_ok_shape (envs i) hok] at hmem
    simp at hmem

/-- Witness fixture: a fully successful `createVM` environment. -/
def okEnv : ScalerEnv :=
  { deployId := some "vm1-id1", deployErr := none, tagErr := none
    destroyErr := fun _ => none }

/-- Witness fixture: per-unit environments where unit 0 succeeds and
unit 1 fails at the deploy step. -/
def batchEnvs : Nat → ScalerEnv := fun i =>
  if i = 0 then okEnv else deployErrEnv3

/-- C4 witness: a 2-unit batch drained in the order 1, 0, with unit 0
succeeding and unit 1 failing: one combined error, and the successful
unit issued no destroy. -/
theorem scaleUp_aggregation_witness :
    ([1, 0] : List Nat).Perm (List.range 2) ∧
    scaleUpRes batchEnvs [1, 0] = some "error creating VMs: deploy err" ∧
    (∀ id, CsOp.destroyCall id ∉ (createVM (batchEnvs 0)).2) := by
  have h := scaleUp_aggregation batchEnvs 2 [1, 0] (by decide) (by decide)
  refine ⟨by decide, ?_, ?_⟩
  · have := h.2.2.1 (by decide)
    rw [this]
    rfl
  · exact h.2.2.2.2 0 (by decide) (by decide)

/-- C6: an enabled cache with positive TTL skips the remote call (and
returns success, leaving the state unchanged) while `now - lastUpdated`
is within the TTL; a disabled cache never calls the remote API; a failed
remote call surfaces the error unchanged and leaves both the project
list and the timestamp untouched; and across successive calls the remote
list call is issued exactly once inside a TTL window opened by a
successful refresh, then issued again after the window elapses. -/
theorem projectCache_refresh_ttl (pc : ProjectCacheState) :
    (∀ now resp, pc.useProjects = true → 0 < pc.maxAge →
      now - pc.lastUpdated ≤ pc.maxAge → pc.refresh now resp = (pc, none, false)) ∧
    (∀ now resp, pc.useProjects = false → pc.refresh now resp = (pc, none, false)) ∧
    (∀ now e, pc.useProjects = true → pc.maxAge < now - pc.lastUpdated →
      pc.refresh now (.error e) = (pc, some e, true)) ∧
    (∀ t1 t2 t3 ps r2 r3, pc.useProjects = true →
      pc.maxAge < t1 - pc.lastUpdated → t2 - t1 ≤ pc.maxAge → pc.maxAge < t3 - t1 →
      (pc.refresh t1 (.ok ps)).2.2 = true ∧
      (pc.refresh t1 (.ok ps)).1.refresh t2 r2 = ((pc.refresh t1 (.ok ps)).1, none, false) ∧
      ((pc.refresh t1 (.ok ps)).1.refresh t3 r3).2.2 = true) := by
  have hskip : ∀ now resp, pc.useProjects = true → now - pc.lastUpdated ≤ pc.maxAge →
      pc.refresh now resp = (pc, none, false) := by
    intro now resp hu hle
    simp [ProjectCacheState.refresh, hu, hle]
  refine ⟨fun now resp hu _ hle => hskip now resp hu hle, ?_, ?_, ?_⟩
  · intro now resp hu
    simp [ProjectCacheState.refresh, hu]
  · intro now e hu hgt
    simp [ProjectCacheState.refresh, hu, not_le.mpr hgt]
  · intro t1 t2 t3 ps r2 r3 hu hgt1 hle2 hgt3
    have h1 : pc.refresh t1 (.ok ps) =
        ({ pc with lastUpdated := t1, projects := ps }, none, true) := by
      simp [ProjectCacheState.refresh, hu, not_le.mpr hgt1]
    refine ⟨by rw [h1], ?_, ?_⟩
    · rw [h1]
      simp [ProjectCacheState.refresh, hu, hle2]
    · rw [h1]
      simp [ProjectCacheState.refresh, hu, not_le.mpr hgt3]
      cases r3 <;> simp

/-- Witness fixture: an enabled project cache with TTL 100 that has
never been refreshed. -/
def pcFix : ProjectCacheState :=
  { projects := [], maxAge := 100, lastUpdated := 0, useProjects := true }

/-- Witness fixture: a disabled project cache. -/
def pcOff : ProjectCacheState :=
  { projects := [], maxAge := 100, lastUpdated := 0, useProjects := false }

/-- C6 witness: with TTL 100, a first (stale) refresh at t=101 issues
the remote call; a second at t=150 is a no-op; a third at t=250 issues
the call again; a disabled cache never calls; a failure at t=101 leaves
the state untouched. -/
theorem projectCache_refresh_ttl_witness :
    (pcFix.refresh 101 (.ok [⟨"p1"⟩])).2.2 = true ∧
    (pcFix.refresh 101 (.ok [⟨"p1"⟩])).1.refresh 150 (.ok []) =
      ((pcFix.refresh 101 (.ok [⟨"p1"⟩])).1, none, false) ∧
    ((pcFix.refresh 101 (.ok [⟨"p1"⟩])).1.refresh 250 (.ok [])).2.2 = true ∧
    pcOff.refresh 101 (.ok [⟨"p1"⟩]) = (pcOff, none, false) ∧
    pcFix.refresh 101 (.error "boom") = (pcFix, some "boom", true) := by
  have h := projectCache_refresh_ttl pcFix
  have hw := h.2.2.2 101 150 250 [⟨"p1"⟩] (.ok []) (.ok [])
    (by decide) (by decide) (by decide) (by decide)
  exact ⟨hw.1, hw.2.1, hw.2.2,
    (projectCache_refresh_ttl pcOff).2.1 101 (.ok [⟨"p1"⟩]) (by decide),
    h.2.2.1 101 "boom" (by decide) (by decide)⟩

/-- C5: `TargetSize` triggers a scale-up of exactly
`minSize - currentSize` units when below the minimum and none otherwise;
a scale-up failure never fails the read; the returned size is the actual
bound-instance count after the attempt (not the aspirational minimum);
and a group with no bound instances and `minSize = 2` whose scale-up
pass succeeds (the subsequent listing returning the 2 instances) reads
back 2. -/
theorem targetSize_self_healing (g : CsNodeGroup) (env : ManagerEnv)
    (scalerUp : Int → Option Err) :
    (((g.vms.length : Int) < g.vmProfile.minSize →
      (g.TargetSize env scalerUp).scaleUpReq =
        some (g.vmProfile.minSize - g.vms.length)) ∧
    (g.vmProfile.minSize ≤ (g.vms.length : Int) →
      (g.TargetSize env scalerUp).scaleUpReq = none ∧
      (g.TargetSize env scalerUp).size = g.vms.length)) ∧
    (g.TargetSize env scalerUp).err = none ∧
    (g.TargetSize env scalerUp).size =
      ((g.TargetSize env scalerUp).group.vms.length : Int) ∧
    (g.vms = [] → g.vmProfile.minSize = 2 → scalerUp 2 = none →
      ∀ l, env.listVMs g.vmProfile.projectID g.gid = .ok l → l.length = 2 →
        (g.TargetSize env scalerUp).size = 2) := by
  refine ⟨⟨?_, ?_⟩, targetSize_err_none_aux g env scalerUp, ?_, ?_⟩
  · intro hlt
    simp only [CsNodeGroup.TargetSize]
    rw [if_pos hlt]
  · intro hge
    simp only [CsNodeGroup.TargetSize]
    rw [if_neg (not_lt.mpr hge)]
    exact ⟨rfl, rfl⟩
  · simp only [CsNodeGroup.TargetSize]
    split <;> rfl
  · intro hvms hmin hsc l hl hlen
    have hcond : ((g.vms.length : Int) < g.vmProfile.minSize) := by
      rw [hvms, hmin]; simp
    have harg : g.vmProfile.minSize - (g.vms.length : Int) = 2 := by
      rw [hvms, hmin]; simp
    simp only [CsNodeGroup.TargetSize]
    rw [if_pos hcond, harg]
    simp only [managerScaleUp, hsc]
    simp only [refreshNodeGroupVms, hl]
    split <;> try split
    all_goals simp [hlen]

/-- Witness fixture vms. -/
def vmFixA : VirtualMachine := { id := "xyz", state := "Running" }

/-- Witness fixture vms. -/
def vmFixB : VirtualMachine := { id := "vm1-id1", state := "Starting" }

/-- Witness fixture profile. -/
def aspFix : AutoScaleVmProfile :=
  { id := "asp1", serviceofferingid := "offering1", templateid := "tpl1"
    zoneid := "zone1", projectid := "", otherdeployparams := "" }

/-- Witness fixture: a group with no bound instances and minNodes 2. -/
def gMin2 : CsNodeGroup :=
  { vmProfile :=
      { asp := aspFix, aspMetadata := [("minNodes", "2"), ("nodeGroupName", "ng1")]
        offering := "", zone := "" }
    vms := [] }

/-- Witness fixture: the same group already holding two instances. -/
def gAt2 : CsNodeGroup := { gMin2 with vms := [vmFixA, vmFixB] }

/-- Witness fixture: a manager environment whose vm listing returns two
instances. -/
def envTS : ManagerEnv :=
  { listProjects := .ok [], listProfiles := fun _ => .ok []
    listDetails := fun _ => .ok []
    listVMs := fun _ _ => .ok [vmFixA, vmFixB]
    getOffering := fun _ => .ok "offering1name"
    getZone := fun _ => .ok "zone1name" }

/-- C5 witness: a group with 0 bound instances and minSize 2, on a
successful pass, reads back 2; a group at its minimum triggers no
scale-up and reads its bound count. -/
theorem targetSize_self_healing_witness :
    (gMin2.vms = [] ∧ gMin2.vmProfile.minSize = 2) ∧
    (gMin2.TargetSize envTS (fun _ => none)).size = 2 ∧
    (gAt2.TargetSize envTS (fun _ => none)).scaleUpReq = none ∧
    (gAt2.TargetSize envTS (fun _ => none)).size = 2 := by
  have h2 := (targetSize_self_healing gMin2 envTS (fun _ => none)).2.2.2
    rfl (by decide) rfl [vmFixA, vmFixB] rfl (by decide)
  have h3 := (targetSize_self_healing gAt2 envTS (fun _ => none)).1.2 (by decide)
  exact ⟨⟨rfl, by decide⟩, h2, h3.1, by rw [h3.2]; rfl⟩

/-- No vm is found when no bound instance carries the id. -/
theorem findVM_none (vmID : String) :
    ∀ vms : List VirtualMachine, (∀ vm ∈ vms, vm.id ≠ vmID) →
      findVM vmID vms = none
  | [], _ => rfl
  | v :: rest, h => by
    simp only [findVM]
    rw [if_neg (h v (by simp))]
    exact findVM_none vmID rest (fun vm hm => h vm (by simp [hm]))

/-- C7: `DeleteNodes` strips the group's provider-id prefix before the
lookup; a node whose stripped id is not bound aborts with the exact
error "node (\<name\>, \<providerID\>) not found in nodeGroup \<group\>"
and destroys nothing; a found instance is destroyed and swap-removed;
and the swap-removal is a permutation of dropping the matched position,
preserving membership of every other bound instance. -/
theorem deleteNodes_spec :
    (∀ (g : CsNodeGroup) (dr : String → Option Err) (n : K8sNode)
        (rest : List K8sNode),
      (∀ vm ∈ g.vms, vm.id ≠ trimPfx n.providerID g.vmProfile.providerIDPfx) →
      deleteNodes g dr (n :: rest) =
        (g, some ("node (" ++ n.name ++ ", " ++ n.providerID ++
          ") not found in nodeGroup " ++ g.gid), [])) ∧
    (∀ (g : CsNodeGroup) (dr : String → Option Err) (n : K8sNode)
        (vm : VirtualMachine),
      findVM (trimPfx n.providerID g.vmProfile.providerIDPfx) g.vms = some vm →
      destroyVM (dr vm.id) vm.id = none →
      deleteNodes g dr [n] =
        ({ g with vms := removeVM g.vms vm.id }, none, [vm.id])) ∧
    (∀ (vms : List VirtualMachine) (vmID : String) (i : Nat),
      findIdxVM (fun vm => vm.id = vmID) vms = some i →
      (removeVM vms vmID).Perm (vms.eraseIdx i)) := by
  refine ⟨?_, ?_, removeVM_perm⟩
  · intro g dr n rest hne
    have hfind := findVM_none (trimPfx n.providerID g.vmProfile.providerIDPfx)
      g.vms hne
    simp only [deleteNodes, vmForNode, hfind]
  · intro g dr n vm hfind hdv
    simp only [deleteNodes, vmForNode, hfind, hdv]

/-- Witness fixture vm. -/
def vmFixC : VirtualMachine := { id := "abc", state := "Stopped" }

/-- Witness fixture: a group bound to instances xyz and abc, with
provider-id prefix "x://". -/
def gPfx : CsNodeGroup :=
  { vmProfile :=
      { asp := aspFix
        aspMetadata := [("nodeGroupName", "ng1"), ("providerIDPrefix", "x://")]
        offering := "", zone := "" }
    vms := [vmFixA, vmFixC] }

/-- C7 witness: with bound instances xyz and abc and prefix "x://",
deleting external id "x://abc" destroys and removes exactly abc,
leaving xyz; an unknown external id fails with the exact error and
destroys nothing; and the removal permutes dropping position 1. -/
theorem deleteNodes_spec_witness :
    deleteNodes gPfx (fun _ => none) [{ name := "n1", providerID := "x://abc" }] =
      ({ gPfx with vms := [vmFixA] }, none, ["abc"]) ∧
    deleteNodes gPfx (fun _ => none) [{ name := "n1", providerID := "qwerty" }] =
      (gPfx, some "node (n1, qwerty) not found in nodeGroup ng1", []) ∧
    (removeVM gPfx.vms "abc").Perm (gPfx.vms.eraseIdx 1) := by
  refine ⟨?_, ?_, deleteNodes_spec.2.2 gPfx.vms "abc" 1 (by decide)⟩
  · rw [deleteNodes_spec.2.1 gPfx (fun _ => none)
      { name := "n1", providerID := "x://abc" } vmFixC (by decide) (by decide)]
    decide
  · rw [deleteNodes_spec.1 gPfx (fun _ => none)
      { name := "n1", providerID := "qwerty" } [] (by decide)]
    decide

/-- C9: a `maxNodes`/`minNodes` metadata value that is absent or not a
parseable decimal integer makes `MaxSize`/`MinSize` return 0 with the
parse failure silently discarded; consequently `IncreaseSize` rejects
every positive delta for a group whose `maxNodes` is malformed. -/
theorem size_parse_failure_spec :
    (∀ p : VmProfile, goAtoiValid (mapGetD p.aspMetadata "maxNodes") = false →
      p.maxSize = 0) ∧
    (∀ p : VmProfile, goAtoiValid (mapGetD p.aspMetadata "minNodes") = false →
      p.minSize = 0) ∧
    (∀ p : VmProfile, mapGet p.aspMetadata "maxNodes" = none → p.maxSize = 0) ∧
    (∀ p : VmProfile, mapGet p.aspMetadata "minNodes" = none → p.minSize = 0) ∧
    (∀ (g : CsNodeGroup) (env : ManagerEnv) (scalerUp : Int → Option Err)
        (delta : Int), 0 < delta →
      goAtoiValid (mapGetD g.vmProfile.aspMetadata "maxNodes") = false →
      (g.IncreaseSize env scalerUp delta).2.isSome = true) := by
  have hmax0 : ∀ p : VmProfile,
      goAtoiValid (mapGetD p.aspMetadata "maxNodes") = false → p.maxSize = 0 := by
    intro p h
    simp [VmProfile.maxSize, goAtoi, h]
  refine ⟨hmax0, ?_, ?_, ?_, ?_⟩
  · intro p h
    simp [VmProfile.minSize, goAtoi, h]
  · intro p h
    simp [VmProfile.maxSize, mapGetD, h, goAtoi, goAtoiValid]
  · intro p h
    simp [VmProfile.minSize, mapGetD, h, goAtoi, goAtoiValid]
  · intro g env scalerUp delta hpos hbad
    simp only [CsNodeGroup.IncreaseSize]
    rw [if_neg (not_le.mpr hpos)]
    rw [targetSize_err_none_aux g env scalerUp]
    have hmax : (g.TargetSize env scalerUp).group.vmProfile.maxSize = 0 := by
      apply hmax0
      rw [targetSize_metadata g env scalerUp]
      exact hbad
    have hsize := targetSize_size_nonneg g env scalerUp
    rw [if_pos (by rw [hmax]; omega)]
    rfl

/-- Witness fixture: a group whose maxNodes metadata is malformed. -/
def gBadMax : CsNodeGroup :=
  { vmProfile :=
      { asp := aspFix, aspMetadata := [("maxNodes", "ten")]
        offering := "", zone := "" }
    vms := [] }

/-- C9 witness: maxNodes "ten" yields MaxSize 0 and makes
IncreaseSize(1) fail; an absent minNodes yields MinSize 0. -/
theorem size_parse_failure_spec_witness :
    gBadMax.vmProfile.maxSize = 0 ∧
    (gBadMax.IncreaseSize envTS (fun _ => none) 1).2.isSome = true ∧
    VmProfile.minSize { asp := aspFix, aspMetadata := [], offering := "", zone := "" } = 0 := by
  refine ⟨?_, ?_, ?_⟩
  · exact size_parse_failure_spec.1 gBadMax.vmProfile (by decide)
  · exact size_parse_failure_spec.2.2.2.2 gBadMax envTS (fun _ => none) 1
      (by decide) (by decide)
  · exact size_parse_failure_spec.2.2.2.1 _ (by decide)

/-- Counterexample fixture: an environment whose profile listing fails. -/
def cexEnv : ManagerEnv :=
  { listProjects := .ok [], listProfiles := fun _ => .error "list profiles failed"
    listDetails := fun _ => .ok [], listVMs := fun _ _ => .ok []
    getOffering := fun _ => .ok "", getZone := fun _ => .ok "" }

/-- Counterexample fixture: a manager holding one previously installed
group. -/
def cexMgr : CloudstackManager :=
  { nodeGroups := [gPfx]
    projects := { projects := [], maxAge := 100, lastUpdated := 0, useProjects := false }
    labelConfig := [] }

/-- C1 counterexample: a failing discovery pass does NOT leave the
previously installed group set unchanged — `Refresh` errors yet
reassigns `m.nodeGroups` (here to the empty list). -/
theorem refresh_failure_keeps_groups_cex :
    (cexMgr.Refresh cexEnv 0).2.isSome = true ∧
    (cexMgr.Refresh cexEnv 0).1.nodeGroups ≠ cexMgr.nodeGroups := by
  decide

/-- C1 (amended): the installed group set after `Refresh` never depends
on the previously installed set (it is rebuilt from scratch and
installed unconditionally, so a failing pass replaces rather than
preserves the old set); and two accepted definitions resolving to the
same node-group name abort the pass with a conflict error naming both
AutoScaleVmProfile ids, installing exactly the groups accepted before
the conflict. -/
theorem refresh_conflict_and_reinstall :
    (∀ (env : ManagerEnv) (now : Int) (pc : ProjectCacheState)
        (lc : List LabelConfig) (ngs1 ngs2 : List CsNodeGroup),
      (CloudstackManager.Refresh ⟨ngs1, pc, lc⟩ env now).1.nodeGroups =
        (CloudstackManager.Refresh ⟨ngs2, pc, lc⟩ env now).1.nodeGroups ∧
      (CloudstackManager.Refresh ⟨ngs1, pc, lc⟩ env now).2 =
        (CloudstackManager.Refresh ⟨ngs2, pc, lc⟩ env now).2) ∧
    (∀ (m : CloudstackManager) (env : ManagerEnv) (now : Int)
        (asp1 asp2 : AutoScaleVmProfile)
        (d1 d2 : List (String × String)) (ng1 : CsNodeGroup),
      m.projects.useProjects = false →
      env.listProfiles "" = .ok [asp1, asp2] →
      env.listDetails asp1.id = .ok d1 →
      env.listDetails asp2.id = .ok d2 →
      validASP m.labelConfig (resourceDetailsToMetadata d1) = true →
      validASP m.labelConfig (resourceDetailsToMetadata d2) = true →
      mapGetD (resourceDetailsToMetadata d1) "nodeGroupName" =
        mapGetD (resourceDetailsToMetadata d2) "nodeGroupName" →
      refreshNodeGroupVms env
        { vmProfile :=
            { asp := asp1, aspMetadata := resourceDetailsToMetadata d1
              offering := "", zone := "" }
          vms := [] } = (ng1, none) →
      (m.Refresh env now).2 =
        some ("more than one AutoScaleVMProfile with the nodeGroupName \"" ++
          mapGetD (resourceDetailsToMetadata d2) "nodeGroupName" ++ "\", ids: " ++
          asp2.id ++ " and " ++ asp1.id) ∧
      (m.Refresh env now).1.nodeGroups = [ng1]) := by
  constructor
  · intro env now pc lc ngs1 ngs2
    simp only [CloudstackManager.Refresh]
    cases (pc.refresh now env.listProjects).2.1 <;> simp
  · intro m env now asp1 asp2 d1 d2 ng1 hup hlp hd1 hd2 hv1 hv2 hname hng1
    have hcache : m.projects.refresh now env.listProjects =
        (m.projects, none, false) := by
      simp [ProjectCacheState.refresh, hup]
    simp only [CloudstackManager.Refresh, hcache]
    simp only [processProjects, processProject, hlp]
    simp only [processASPs, processASP, hd1, hd2, hv1, hv2, if_true]
    simp only [CsNodeGroup.gid, VmProfile.gid, mapGet, hng1, mapInsert,
      List.filter_nil, List.nil_append]
    rw [if_pos hname]
    simp [conflictErr]

/-- Witness fixture: a second profile with the same resolved name. -/
def dupAsp2 : AutoScaleVmProfile := { aspFix with id := "asp2" }

/-- Witness fixture: metadata details resolving to name "ng1". -/
def dupDetails : List (String × String) :=
  [("a", "b"), ("nodeGroupName", "ng1"), ("minNodes", "0"), ("maxNodes", "10")]

/-- Witness fixture: an environment whose root partition lists two
profiles that both resolve to node-group name "ng1". -/
def dupEnv : ManagerEnv :=
  { listProjects := .ok []
    listProfiles := fun pid => if pid = "" then .ok [aspFix, dupAsp2] else .ok []
    listDetails := fun _ => .ok dupDetails
    listVMs := fun _ _ => .ok [vmFixB]
    getOffering := fun _ => .ok "offering1name"
    getZone := fun _ => .ok "zoneFix1name" }

/-- Witness fixture: a manager matching the "a=b" selector. -/
def dupMgr : CloudstackManager :=
  { nodeGroups := [], projects := pcOff, labelConfig := [{ selector := [("a", "b")] }] }

/-- Witness fixture: the first group as resolved by the pass. -/
def dupNg1 : CsNodeGroup :=
  (refreshNodeGroupVms dupEnv
    { vmProfile :=
        { asp := aspFix, aspMetadata := resourceDetailsToMetadata dupDetails
          offering := "", zone := "" }
      vms := [] }).1

/-- C1 witness: two profiles resolving to "ng1" abort the pass with the
conflict error naming asp2 and asp1 while installing only the first
group, and the installed set after a failing pass is the same whatever
groups were previously installed. -/
theorem refresh_conflict_and_reinstall_witness :
    (dupMgr.Refresh dupEnv 0).2 =
      some "more than one AutoScaleVMProfile with the nodeGroupName \"ng1\", ids: asp2 and asp1" ∧
    (dupMgr.Refresh dupEnv 0).1.nodeGroups.map CsNodeGroup.gid = ["ng1"] ∧
    (CloudstackManager.Refresh ⟨[gPfx], pcOff, []⟩ cexEnv 0).1.nodeGroups =
      (CloudstackManager.Refresh ⟨[], pcOff, []⟩ cexEnv 0).1.nodeGroups := by
  have h := refresh_conflict_and_reinstall.2 dupMgr dupEnv 0 aspFix dupAsp2
    dupDetails dupDetails dupNg1 (by decide) rfl rfl rfl
    (by decide) (by decide) rfl (by decide)
  refine ⟨?_, ?_, (refresh_conflict_and_reinstall.1 cexEnv 0 pcOff [] [gPfx] []).1⟩
  · rw [h.1]
    decide
  · rw [h.2]
    decide

end Autoscaler
